import Mathlib

/-!
Verification of `src/database/backend/pqc_auth_middleware.rs`
(TheSixthBrigade/radiant-realm-project), a PQC authentication gateway stub
built on actix-web.

Shallow embedding: HTTP requests and responses are plain structures; the two
handlers `pqc_handshake` and `proxy_request` are translated directly from the
Rust source.  Since the handlers' only externally visible effects relevant to
the design are the requests they would issue to the backend collaborator
(PostgREST / GoTrue), each handler invocation is modelled together with the
list of backend requests it issues; the source issues none (its only side
effect is `println!`, which is not backend contact), so that trace is empty
in both branches of `proxy_request` and in `pqc_handshake`.
-/

/-- The application state held by the actix server: the gateway's static
Kyber keypair, from `struct AppState` (lines 6-10 of the source).
Bytes are modelled as `Nat`. -/
structure AppState where
  server_public_key : List Nat
  server_secret_key : List Nat
  deriving DecidableEq, Repr

/-- An inbound HTTP request: method, path, headers (name-value pairs, in
order) and raw body bytes. -/
structure HttpRequest where
  method : String
  path : String
  headers : List (String × String)
  body : List Nat
  deriving DecidableEq, Repr

/-- An HTTP response: status code and body, mirroring the only data the
source ever puts in a response (`HttpResponse::Ok().body(..)`,
`HttpResponse::Unauthorized().body(..)`). -/
structure HttpResponse where
  status : Nat
  body : String
  deriving DecidableEq, Repr

/-- `req.headers().get(name)`: the first header with the given name, if
any. -/
def getHeader (req : HttpRequest) (name : String) : Option String :=
  (req.headers.find? (fun p => p.1 = name)).map Prod.snd

/-- The `pqc_handshake` handler (source lines 12-33).  The entire body of
the Rust function apart from a `println!` is
`HttpResponse::Ok().body("PQC Handshake Mock Endpoint")`: the request, the
application state (including both stored keys) and the request body are
never read, no ciphertext, shared secret or signature is computed, and the
pseudo-code describing encapsulate/sign lives only in a comment.  The second
component is the (empty) trace of backend requests issued. -/
def pqc_handshake (req : HttpRequest) (data : AppState) :
    HttpResponse × List HttpRequest :=
  ({ status := 200, body := "PQC Handshake Mock Endpoint" }, [])

/-- The `proxy_request` handler (source lines 35-48).  It matches on the
presence of the `X-Quantum-Auth` header: `Some(_)` (any value, never
inspected) yields `HttpResponse::Ok().body("Proxy Successful")`; `None`
yields `HttpResponse::Unauthorized().body("Missing Quantum Authorization")`.
No verification of the header value is performed (the source holds only the
comment `// Verify Logic Here`), and no request is ever forwarded to
PostgREST or GoTrue, so the backend-request trace is empty in both
branches. -/
def proxy_request (req : HttpRequest) : HttpResponse × List HttpRequest :=
  match getHeader req "X-Quantum-Auth" with
  | some _ => ({ status := 200, body := "Proxy Successful" }, [])
  | none => ({ status := 401, body := "Missing Quantum Authorization" }, [])

/-- The state constructed once in `main` (source lines 54-64):
`let pk = vec![0; 1024]; let sk = vec![0; 1024];` — constant all-zero
vectors, with no call to any key-generation primitive (`keypair()` appears
only in a comment). -/
def initState : AppState :=
  { server_public_key := List.replicate 1024 0
    server_secret_key := List.replicate 1024 0 }

/-- The routing table installed in `main` (source lines 59-67):
`POST /pqc/handshake` is served by `pqc_handshake`; every other request
falls to the catch-all route `/{tail:.*}` served by `proxy_request`. -/
def route (st : AppState) (req : HttpRequest) :
    HttpResponse × List HttpRequest :=
  if req.method = "POST" ∧ req.path = "/pqc/handshake" then
    pqc_handshake req st
  else
    proxy_request req

/-- One server step: handle a request against the current state.  Neither
handler takes `&mut` state or returns a new state in the source, so the
state component is passed through unchanged. -/
def serverStep (st : AppState) (req : HttpRequest) :
    (HttpResponse × List HttpRequest) × AppState :=
  (route st req, st)

/-- Handle a sequence of requests, threading the application state from one
request to the next and collecting the responses. -/
def handleMany : AppState → List HttpRequest → List HttpResponse × AppState
  | st, [] => ([], st)
  | st, r :: rs =>
    let step := serverStep st r
    let rest := handleMany step.2 rs
    (step.1.1 :: rest.1, rest.2)

/-- A well-formed Kyber1024 client public key (1568 bytes), used as a
concrete handshake input. -/
def goodClientKey : List Nat := List.replicate 1568 1

/-- A handshake request carrying a well-formed client public key. -/
def goodHandshakeReq : HttpRequest :=
  { method := "POST", path := "/pqc/handshake", headers := [],
    body := goodClientKey }

/-- A handshake request whose body is a truncated (3-byte) public key. -/
def truncatedHandshakeReq : HttpRequest :=
  { method := "POST", path := "/pqc/handshake", headers := [],
    body := [0, 1, 2] }

/-- A request to `/anything` with no `X-Quantum-Auth` header. -/
def noHeaderReq : HttpRequest :=
  { method := "GET", path := "/anything", headers := [], body := [] }

/-- A request to `/anything` carrying a syntactically invalid token. -/
def invalidTokenReq : HttpRequest :=
  { method := "GET", path := "/anything",
    headers := [("X-Quantum-Auth", "not-a-valid-token")], body := [] }

/-- A request carrying a (notionally) valid, fresh, correctly signed
token. -/
def validTokenReq : HttpRequest :=
  { method := "GET", path := "/anything",
    headers := [("X-Quantum-Auth", "payload.AAAA")], body := [] }

/-- The same token with one bit flipped in its signature portion
(`AAAA` → `AAAC`: final byte 0x41 becomes 0x43, a single-bit change). -/
def tamperedTokenReq : HttpRequest :=
  { method := "GET", path := "/anything",
    headers := [("X-Quantum-Auth", "payload.AAAC")], body := [] }

/-- A second header-less request (POST to a data path), used to compare two
requests that both lack the `X-Quantum-Auth` header. -/
def postNoHeaderReq : HttpRequest :=
  { method := "POST", path := "/data/items", headers := [], body := [7] }

/-- Claim C9: `pqc_handshake` is a constant total function: for every
request and every application state it returns HTTP 200 with the fixed body
"PQC Handshake Mock Endpoint", issues no backend request, and — being
constant in both arguments — reads neither the request body nor the stored
keys and computes no ciphertext, shared secret, or signature. -/
theorem pqc_handshake_constant (req : HttpRequest) (data : AppState) :
    pqc_handshake req data =
      ({ status := 200, body := "PQC Handshake Mock Endpoint" }, []) := rfl

/-- Claim C1 (failing-input evaluation): on a well-formed 1568-byte
Kyber1024 client public key, the handshake handler returns the fixed mock
body "PQC Handshake Mock Endpoint" — no ciphertext and no signature appear
in the response, so no signature verifying over the returned ciphertext
exists, contradicting the claimed signature-binding correctness. -/
theorem handshake_good_key_returns_mock_only :
    pqc_handshake goodHandshakeReq initState =
      ({ status := 200, body := "PQC Handshake Mock Endpoint" }, []) := rfl

/-- Claim C5 (failing-input evaluation): on a truncated 3-byte public key
the handshake handler still returns HTTP 200 with the mock body, not the
claimed 400 `HandshakeError::InvalidPublicKey`. -/
theorem handshake_truncated_key_returns_200_mock :
    pqc_handshake truncatedHandshakeReq initState =
      ({ status := 200, body := "PQC Handshake Mock Endpoint" }, []) := rfl

/-- Claim C2 (failing-input evaluation): a request to `/anything` carrying
an invalid token in `X-Quantum-Auth` is answered 200 "Proxy Successful",
not the claimed 401: the header value is never inspected. -/
theorem invalid_token_gets_200_not_401 :
    proxy_request invalidTokenReq =
      ({ status := 200, body := "Proxy Successful" }, []) := rfl

/-- Claim C3 (failing-input evaluation): a token that is accepted (200) is
still accepted after flipping one bit in its signature portion
(`payload.AAAA` → `payload.AAAC`); the code never returns
`Rejected{InvalidSignature}`. -/
theorem tampered_signature_still_accepted :
    proxy_request validTokenReq =
      ({ status := 200, body := "Proxy Successful" }, []) ∧
    proxy_request tamperedTokenReq =
      ({ status := 200, body := "Proxy Successful" }, []) := ⟨rfl, rfl⟩

/-- Claim C4: for every request the verifier rejects (the only rejection
the source implements: missing `X-Quantum-Auth` header), the handler issues
zero backend requests. -/
theorem rejected_request_zero_backend_contact (req : HttpRequest)
    (h : getHeader req "X-Quantum-Auth" = none) :
    (proxy_request req).2 = [] := by
  simp [proxy_request, h]

/-- Witness for C4 at the concrete header-less request to `/anything`. -/
theorem rejected_request_zero_backend_contact_witness :
    (proxy_request noHeaderReq).2 = [] :=
  rejected_request_zero_backend_contact noHeaderReq rfl

/-- Claim C6 (failing-input evaluation): a request carrying a valid, fresh,
correctly signed token is answered by the gateway's own fixed
200 "Proxy Successful" with an empty backend-request trace: the request is
never forwarded, so the response cannot be a relayed backend response. -/
theorem valid_token_request_never_reaches_backend :
    route initState validTokenReq =
      ({ status := 200, body := "Proxy Successful" }, []) := rfl

/-- Claim C7 (failing-input evaluation): submitting the same valid token
twice yields two 200 "Proxy Successful" acceptances — the handler keeps no
replay-nonce state (the server state is threaded unchanged), so both
submissions are accepted regardless of interleaving, never one
`Rejected{Replayed}`. -/
theorem same_token_twice_both_accepted :
    handleMany initState [validTokenReq, validTokenReq] =
      ([{ status := 200, body := "Proxy Successful" },
        { status := 200, body := "Proxy Successful" }], initState) := rfl

/-- Claim C8: the outcome of `proxy_request` depends only on the presence
of the `X-Quantum-Auth` header: any two requests carrying the header get the
identical 200 "Proxy Successful" response, and any two requests lacking it
get the identical 401 "Missing Quantum Authorization" response, with no
backend contact either way; no property of the token's content influences
the decision. -/
theorem proxy_depends_only_on_header_presence (r₁ r₂ : HttpRequest) :
    ((getHeader r₁ "X-Quantum-Auth").isSome = true →
      (getHeader r₂ "X-Quantum-Auth").isSome = true →
        proxy_request r₁ = proxy_request r₂ ∧
        proxy_request r₁ = ({ status := 200, body := "Proxy Successful" }, [])) ∧
    ((getHeader r₁ "X-Quantum-Auth").isSome = false →
      (getHeader r₂ "X-Quantum-Auth").isSome = false →
        proxy_request r₁ = proxy_request r₂ ∧
        proxy_request r₁ =
          ({ status := 401, body := "Missing Quantum Authorization" }, [])) := by
  unfold proxy_request
  cases h₁ : getHeader r₁ "X-Quantum-Auth" <;>
    cases h₂ : getHeader r₂ "X-Quantum-Auth" <;> simp

/-- Witness for C8: a valid-token request and an invalid-token request get
the same 200 response; a header-less GET and a header-less POST get the
same 401 response. -/
theorem proxy_depends_only_on_header_presence_witness :
    (proxy_request validTokenReq = proxy_request invalidTokenReq ∧
     proxy_request validTokenReq =
       ({ status := 200, body := "Proxy Successful" }, [])) ∧
    (proxy_request noHeaderReq = proxy_request postNoHeaderReq ∧
     proxy_request noHeaderReq =
       ({ status := 401, body := "Missing Quantum Authorization" }, [])) :=
  ⟨(proxy_depends_only_on_header_presence validTokenReq invalidTokenReq).1
      rfl rfl,
   (proxy_depends_only_on_header_presence noHeaderReq postNoHeaderReq).2
      rfl rfl⟩

/-- Claim C10: `main` sets both stored keys to the constant all-zero vector
of length 1024 (no key-generation primitive is called, so initialization is
a total constant and cannot fail), and the state threaded through any
sequence of handled requests is still exactly that initial state: no
operation mutates it. -/
theorem keys_zero_and_state_immutable :
    initState.server_public_key = List.replicate 1024 0 ∧
    initState.server_secret_key = List.replicate 1024 0 ∧
    ∀ reqs : List HttpRequest, (handleMany initState reqs).2 = initState := by
  refine ⟨rfl, rfl, ?_⟩
  intro reqs
  induction reqs with
  | nil => rfl
  | cons r rs ih => simpa [handleMany, serverStep] using ih
